import Mathlib

/-
A shallow embedding of the film-catalog backend: the write service
(create / update / delete with optimistic concurrency), the read service
(findById and criteria search via the query builder), the version-token
codec of the REST controller, and the relational store
(film / titel / schauspieler) behind them.

Conventions of the embedding:
* asynchronous methods returning a promise that may reject with a typed
  exception become functions into `Except FilmError _`;
* the database state is passed explicitly as a `Store`; a method that
  writes returns the new store next to its result;
* JavaScript numbers that can be NaN are `Option Int` (none = NaN);
* exception messages that are template strings become structured
  constructors carrying the interpolated data.
-/

namespace Buch

/-- Decidable equality of `Except` results, used to evaluate the
services on concrete inputs. -/
instance exceptDecEq [DecidableEq ε] [DecidableEq α] : DecidableEq (Except ε α) := fun
  | .ok a, .ok b => decidable_of_iff (a = b) (by simp)
  | .ok _, .error _ => .isFalse (by simp)
  | .error _, .ok _ => .isFalse (by simp)
  | .error e, .error f => decidable_of_iff (e = f) (by simp)

/- ### JavaScript primitives -/

/-- A decimal digit as a character; digits above 9 do not occur. -/
def digitChar : Nat → Char
  | 0 => '0'
  | 1 => '1'
  | 2 => '2'
  | 3 => '3'
  | 4 => '4'
  | 5 => '5'
  | 6 => '6'
  | 7 => '7'
  | 8 => '8'
  | 9 => '9'
  | _ => '*'

/-- Fuel-driven digit accumulation for `natToDecimal` (the fuel is
always sufficient where it is used). -/
def natToDecimalAux : Nat → Nat → List Char → List Char
  | 0, _, acc => acc
  | fuel + 1, n, acc =>
    if n < 10 then digitChar n :: acc
    else natToDecimalAux fuel (n / 10) (digitChar (n % 10) :: acc)

/-- Decimal expansion of a natural number, most significant digit first:
the character list produced by JavaScript ToString on a non-negative
integer. -/
def natToDecimal (n : Nat) : List Char := natToDecimalAux (n + 1) n []

/-- JavaScript ToString on a non-negative integer. -/
def jsNatToString (n : Nat) : String := String.mk (natToDecimal n)

/-- JavaScript ToString on an integer. -/
def intToString (i : Int) : String :=
  if i < 0 then String.mk ('-' :: natToDecimal i.natAbs) else jsNatToString i.natAbs

/-- Value of a decimal digit string, leading digit first. -/
def digitsVal (cs : List Char) : Nat :=
  cs.foldl (fun a c => 10 * a + (c.toNat - 48)) 0

/-- Whitespace skipped by Number.parseInt. -/
def jsWhitespace (c : Char) : Bool :=
  c == ' ' || c == '\t' || c == '\n' || c == '\r'

/-- Longest leading run of decimal digits, as a number; `none` when that
run is empty (Number.parseInt yields NaN then). -/
def digitsLeadVal (cs : List Char) : Option Nat :=
  let ds := cs.takeWhile Char.isDigit
  if ds.isEmpty then none else some (digitsVal ds)

/-- Sign handling of Number.parseInt after whitespace has been
skipped. -/
def jsParseIntCore : List Char → Option Int
  | [] => none
  | c :: cs =>
    if c = '-' then
      match digitsLeadVal cs with
      | none => none
      | some m => some (-(m : Int))
    else if c = '+' then
      match digitsLeadVal cs with
      | none => none
      | some m => some ((m : Int))
    else
      match digitsLeadVal (c :: cs) with
      | none => none
      | some m => some ((m : Int))

/-- Model of JavaScript Number.parseInt(s, 10): skip leading whitespace,
read an optional sign, then the longest leading digit run; `none` models
NaN. -/
def jsParseInt (s : String) : Option Int :=
  jsParseIntCore (s.data.dropWhile jsWhitespace)

/-- JavaScript `s.slice(1, -1)`: the string without its first and last
characters. -/
def jsSliceInner (s : String) : String := String.mk ((s.data.drop 1).dropLast)

/-- Leading-match test on character lists (needle against the front of
the haystack). -/
def charsLeadMatch : List Char → List Char → Bool
  | [], _ => true
  | _ :: _, [] => false
  | a :: as, b :: bs => a == b && charsLeadMatch as bs

/-- Containment test on character lists: does the needle occur
contiguously somewhere in the haystack? -/
def charsContain (needle : List Char) : List Char → Bool
  | [] => charsLeadMatch needle []
  | b :: bs => charsLeadMatch needle (b :: bs) || charsContain needle bs

/-- SQL `hay LIKE '%pat%'` under a case-insensitive collation (the
query builder uses `ilike` on Postgres and MySQL's case-insensitive
`like` otherwise): case-folded substring containment.  Wildcards inside
the payload are not modelled. -/
def likeContains (hay pat : String) : Bool :=
  charsContain (pat.data.map Char.toLower) (hay.data.map Char.toLower)

/- ### The version-token codec -/

/-- Does the list start with a double quote? -/
def headIsQuote : List Char → Bool
  | [] => false
  | d :: _ => d == '"'

/-- `FilmWriteService.VERSION_PATTERN = new RE2('^"\d*"')` applied with
`.test`: the string must begin with a double quote, zero or more decimal
digits and another double quote; anything may follow, because the
pattern has no end anchor. -/
def versionPatternCore : List Char → Bool
  | [] => false
  | c :: rest => c == '"' && headIsQuote (rest.dropWhile Char.isDigit)

/-- `VERSION_PATTERN.test(version)` on the token string. -/
def versionPatternTest (s : String) : Bool := versionPatternCore s.data

/-- The ETag produced by `FilmWriteController.put`:
the template literal `"${neueVersion}"`. -/
def formatETag (v : Nat) : String := String.mk ('"' :: natToDecimal v ++ ['"'])

/- ### Errors -/

/-- The `NotFoundException` messages thrown by the services, with the
interpolated data kept structured.  The message strings are:
`Es gibt kein Film mit der ID ${id}.` (findById),
`Es gibt keinen Film mit der ID undefined.` (update without id),
`Ungueltige Suchkriterien` (find, invalid criteria key),
`Keine Filme gefunden: ${JSON.stringify(suchkriterien)}` (find, empty
result). -/
inductive NotFoundMsg where
  | keinFilmMitId (id : Nat)
  | keinenFilmMitIdUndefined
  | ungueltigeSuchkriterien
  | keineFilmeGefunden (criteria : List (String × String))
deriving DecidableEq

/-- The typed failures of the application core:
`NotFoundException`, `TitelExistsException` (carrying the new film's
title), `VersionInvalidException` (carrying the offending token) and
`VersionOutdatedException` (carrying the claimed version). -/
inductive FilmError where
  | notFound (msg : NotFoundMsg)
  | titelExists (titel : String)
  | versionInvalid (version : Option String)
  | versionOutdated (version : Option Int)
deriving DecidableEq

/- ### Entities and the store -/

/-- A row of the `titel` table (entity `Titel`), owned by one film. -/
structure TitelRow where
  id : Nat
  titel : String
  originaltitel : Option String
  serienname : Option String
  filmId : Nat
deriving DecidableEq

/-- A row of the `schauspieler` table (entity `Schauspieler`), owned by
one film. -/
structure SchauspielerRow where
  id : Nat
  vorname : String
  nachname : String
  geschlecht : Option String
  email : Option String
  telefonnummer : Option String
  filmId : Nat
deriving DecidableEq

/-- A row of the `film` table (entity `Film`): scalar columns per
`create.sql`. -/
structure FilmRow where
  id : Nat
  version : Nat
  rating : Option Int
  filmstart : Option String
  dauer : Option String
  sprache : Option String
  direktor : Option String
  genres : List String
deriving DecidableEq

/-- A film aggregate as returned by `findById`: the film row, its inner
joined `Titel` and, when requested, its `Schauspieler` rows. -/
structure FilmAgg where
  row : FilmRow
  titel : TitelRow
  schauspielers : List SchauspielerRow
deriving DecidableEq

/-- The relational database: the three tables plus an id fountain for
the auto-increment columns. -/
structure Store where
  films : List FilmRow
  titels : List TitelRow
  schauspielers : List SchauspielerRow
  fresh : Nat
deriving DecidableEq

/-- The `TitelDTO` payload of a create request. -/
structure TitelInput where
  titel : String
  originaltitel : Option String
  serienname : Option String
deriving DecidableEq

/-- The `SchauspielerDTO` payload of a create request. -/
structure SchauspielerInput where
  vorname : String
  nachname : String
  geschlecht : Option String
  email : Option String
  telefonnummer : Option String
deriving DecidableEq

/-- The film passed to `create` (built by `#filmDtoToFilm`): scalar
fields plus the owned title group and actors; id and version are
undefined. -/
structure FilmInput where
  rating : Option Int
  filmstart : Option String
  dauer : Option String
  sprache : Option String
  direktor : Option String
  genres : List String
  titel : TitelInput
  schauspielers : List SchauspielerInput
deriving DecidableEq

/-- The film passed to `update` (built by `#filmDtoOhneRefToFilm`):
scalar fields only, each possibly undefined; id, version and the owned
relations are undefined. -/
structure FilmPayload where
  rating : Option Int
  filmstart : Option String
  dauer : Option String
  sprache : Option String
  direktor : Option String
  genres : Option (List String)
deriving DecidableEq

/- ### The read service -/

/-- `Object.getOwnPropertyNames(new Film())` as computed in the
`FilmReadService` constructor: the declared fields of the entity class
plus its `toString` arrow-function property (spec section 9: the search
keys are checked by reflecting over an entity instance's own property
names). -/
def filmProps : List String :=
  ["id", "version", "titel", "rating", "filmstart", "dauer", "genre",
   "direktor", "schauspielers", "erzeugt", "aktualisiert", "toString"]

/-- A single criteria key passes `#checkKeys` when it is a film property
or one of the three genre flags. -/
def isValidKey (k : String) : Bool :=
  filmProps.contains k || k == "action" || k == "horror" || k == "romance"

/-- `FilmReadService.#checkKeys`: every key must be valid. -/
def checkKeys (keys : List String) : Bool := keys.all isValidKey

/-- SQL equality `film.${key} = :value` of the dynamic rest-criteria,
modelled on string representations of the scalar columns; keys naming
relation or timestamp columns never match. -/
def filmAttrEq (f : FilmRow) (key v : String) : Bool :=
  if key == "id" then jsNatToString f.id == v
  else if key == "version" then jsNatToString f.version == v
  else if key == "rating" then
    match f.rating with
    | some r => intToString r == v
    | none => false
  else if key == "filmstart" then f.filmstart == some v
  else if key == "dauer" then f.dauer == some v
  else if key == "sprache" then f.sprache == some v
  else if key == "direktor" then f.direktor == some v
  else if key == "genre" then String.intercalate "," f.genres == v
  else if key == "genres" then String.intercalate "," f.genres == v
  else false

/-- One WHERE clause of `QueryBuilder.build`: `titel` is a
case-insensitive substring match on the joined title, each genre flag
set to the string `true` requires the genre list (stored as a joined
string) to contain the tag, and every remaining key is an equality
filter on the same-named film column. -/
def criterionMatches (f : FilmRow) (t : TitelRow) (kv : String × String) : Bool :=
  if kv.1 == "titel" then likeContains t.titel kv.2
  else if kv.1 == "action" then
    !(kv.2 == "true") || likeContains (String.intercalate "," f.genres) "ACTION"
  else if kv.1 == "horror" then
    !(kv.2 == "true") || likeContains (String.intercalate "," f.genres) "HORROR"
  else if kv.1 == "romance" then
    !(kv.2 == "true") || likeContains (String.intercalate "," f.genres) "ROMANCE"
  else filmAttrEq f kv.1 kv.2

/-- All active filters of `QueryBuilder.build` are AND-conjoined. -/
def matchesCriteria (f : FilmRow) (t : TitelRow) (kvs : List (String × String)) : Bool :=
  kvs.all (criterionMatches f t)

/-- `QueryBuilder.build(criteria).getMany()`: films inner joined with
their title (a film without a `titel` row disappears from the result;
the schema keys `titel.film_id` unique, so `find?` picks the joined
row), filtered by the AND of all criteria. -/
def runQuery (st : Store) (kvs : List (String × String)) : List FilmAgg :=
  st.films.filterMap (fun f =>
    match st.titels.find? (fun t => t.filmId == f.id) with
    | none => none
    | some t => if matchesCriteria f t kvs then some ⟨f, t, []⟩ else none)

/-- `QueryBuilder.buildId({id, mitSchauspielers}).getOne()` followed by
the null check of `FilmReadService.findById`: the film inner joined with
its title (left joined with its actors when requested), or
`NotFoundException` when the join is empty. -/
def findByIdStore (st : Store) (i : Nat) (mitSchauspielers : Bool) :
    Except FilmError FilmAgg :=
  match st.films.find? (fun f => f.id == i), st.titels.find? (fun t => t.filmId == i) with
  | some f, some t =>
    .ok { row := f, titel := t,
          schauspielers :=
            if mitSchauspielers then st.schauspielers.filter (fun s => s.filmId == i)
            else [] }
  | _, _ => .error (.notFound (.keinFilmMitId i))

/-- `FilmReadService.find`: without criteria (or with an empty criteria
object) the query runs unguarded; otherwise the keys are validated
(`NotFoundException` 'Ungueltige Suchkriterien' on an invalid key) and
an empty result set becomes `NotFoundException` 'Keine Filme
gefunden: ...'. -/
def find (st : Store) (crit : Option (List (String × String))) :
    Except FilmError (List FilmAgg) :=
  match crit with
  | none => .ok (runQuery st [])
  | some kvs =>
    if kvs.isEmpty then .ok (runQuery st kvs)
    else if !checkKeys (kvs.map Prod.fst) then
      .error (.notFound .ungueltigeSuchkriterien)
    else
      let filme := runQuery st kvs
      if filme.isEmpty then .error (.notFound (.keineFilmeGefunden kvs))
      else .ok filme

/- ### The write service -/

/-- `FilmWriteService.#validateVersion`: reject an undefined token or
one that fails `VERSION_PATTERN`, then `Number.parseInt` of
`version.slice(1, -1)`; the result is `none` (NaN) when the sliced
string has no leading digits. -/
def validateVersion (version : Option String) : Except FilmError (Option Int) :=
  match version with
  | none => .error (.versionInvalid none)
  | some v =>
    if versionPatternTest v then .ok (jsParseInt (jsSliceInner v))
    else .error (.versionInvalid (some v))

/-- JavaScript `<` with a possibly-NaN left operand: NaN compares false. -/
def jsLtNat (v : Option Int) (db : Nat) : Bool :=
  match v with
  | none => false
  | some a => a < (db : Int)

/-- `FilmWriteService.#findByIdAndCheckVersion`: fetch the stored film
and fail `VersionOutdatedException` when the claimed version is below
the stored one. -/
def findByIdAndCheckVersion (st : Store) (i : Nat) (version : Option Int) :
    Except FilmError FilmAgg :=
  match findByIdStore st i false with
  | .error e => .error e
  | .ok filmDb =>
    if jsLtNat version filmDb.row.version then .error (.versionOutdated version)
    else .ok filmDb

/-- `FilmWriteService.#validateUpdate`: decode the token, then fetch and
check the version. -/
def validateUpdate (st : Store) (i : Nat) (versionStr : Option String) :
    Except FilmError FilmAgg :=
  match validateVersion versionStr with
  | .error e => .error e
  | .ok v => findByIdAndCheckVersion st i v

/-- Keep the first value when it is defined, else the second:
how `repo.merge` treats one scalar property. -/
def orUndef (a b : Option α) : Option α :=
  match a with
  | some x => some x
  | none => b

/-- Modelled from the spec: `repo.merge(filmNeu, film)` of the external
ORM copies the caller-supplied scalar fields onto the stored entity
while id, version and the owned relations stay untouched (spec section
4.4 step 5); the caller-supplied entity has id, version and relations
undefined. -/
def mergeFilm (stored : FilmRow) (p : FilmPayload) : FilmRow :=
  { stored with
    rating := orUndef p.rating stored.rating
    filmstart := orUndef p.filmstart stored.filmstart
    dauer := orUndef p.dauer stored.dauer
    sprache := orUndef p.sprache stored.sprache
    direktor := orUndef p.direktor stored.direktor
    genres :=
      match p.genres with
      | some g => g
      | none => stored.genres }

/-- Modelled from the spec: the update path of `repo.save` of the
external ORM persists the merged entity and is solely responsible for
incrementing the persisted version by exactly 1 (spec section 4.2, the
`@VersionColumn` of the entity, `src/unnamed/part_002`). -/
def saveUpdate (st : Store) (merged : FilmRow) : FilmRow × Store :=
  let updated := { merged with version := merged.version + 1 }
  (updated,
   { st with films := st.films.map (fun f => if f.id == merged.id then updated else f) })

/-- Fresh actor rows for an inserted film, ids taken in sequence. -/
def mkSchRows (startId fid : Nat) : List SchauspielerInput → List SchauspielerRow
  | [] => []
  | a :: rest =>
    { id := startId, vorname := a.vorname, nachname := a.nachname,
      geschlecht := a.geschlecht, email := a.email,
      telefonnummer := a.telefonnummer, filmId := fid } :: mkSchRows (startId + 1) fid rest

/-- Modelled from the spec: the insert path of `repo.save` of the
external ORM assigns a fresh id, persists the film with its owned
`Titel` and `Schauspieler` rows in one atomic save (cascade insert) and
gives the new row the initial version 0 (`create.sql`:
`version INT NOT NULL DEFAULT 0`). -/
def saveInsert (st : Store) (film : FilmInput) : FilmRow × Store :=
  let fid := st.fresh
  let filmRow : FilmRow :=
    { id := fid, version := 0, rating := film.rating, filmstart := film.filmstart,
      dauer := film.dauer, sprache := film.sprache, direktor := film.direktor,
      genres := film.genres }
  let titelRow : TitelRow :=
    { id := st.fresh + 1, titel := film.titel.titel,
      originaltitel := film.titel.originaltitel, serienname := film.titel.serienname,
      filmId := fid }
  let schRows := mkSchRows (st.fresh + 2) fid film.schauspielers
  (filmRow,
   { films := st.films ++ [filmRow],
     titels := st.titels ++ [titelRow],
     schauspielers := st.schauspielers ++ schRows,
     fresh := st.fresh + 2 + film.schauspielers.length })

/-- `FilmWriteService.#validateCreate`: look the new title up via
`readService.find({titel})`; a `NotFoundException` from the lookup means
the title is free, any other outcome (in particular a successful lookup)
ends in `TitelExistsException`. -/
def validateCreate (st : Store) (film : FilmInput) : Except FilmError Unit :=
  match find st (some [("titel", film.titel.titel)]) with
  | .error (.notFound _) => .ok ()
  | _ => .error (.titelExists film.titel.titel)

/-- `FilmWriteService.create`: validate the title, save the film (one
implicit transaction), send the notification mail (an external
collaborator without store effect) and return the assigned id. -/
def create (st : Store) (film : FilmInput) : Except FilmError (Nat × Store) :=
  match validateCreate st film with
  | .error e => .error e
  | .ok _ =>
    let (filmDb, st') := saveInsert st film
    .ok (filmDb.id, st')

/-- `FilmWriteService.update`: an undefined id raises
`NotFoundException` ('Es gibt keinen Film mit der ID undefined.') before
anything else; then the token is decoded, the stored film fetched and
version checked, the caller's scalar fields merged on and the merged
entity saved; the result is the version assigned by the store. -/
def update (st : Store) (id : Option Nat) (film : FilmPayload)
    (version : Option String) : Except FilmError (Nat × Store) :=
  match id with
  | none => .error (.notFound .keinenFilmMitIdUndefined)
  | some i =>
    match validateUpdate st i version with
    | .error e => .error e
    | .ok filmNeu =>
      let merged := mergeFilm filmNeu.row film
      let (updated, st') := saveUpdate st merged
      .ok (updated.version, st')

/-- `FilmWriteService.delete`: fetch the film with its actors (the read
service raises `NotFoundException` when there is none), then inside one
transaction delete the title row by its id, each fetched actor row by
its id and the film row; the result says whether a film row was
removed. -/
def deleteFilm (st : Store) (i : Nat) : Except FilmError (Bool × Store) :=
  match findByIdStore st i true with
  | .error e => .error e
  | .ok film =>
    let titels' := st.titels.filter (fun t => !(t.id == film.titel.id))
    let sch' := st.schauspielers.filter
      (fun s => !(film.schauspielers.any (fun d => d.id == s.id)))
    let affected := (st.films.filter (fun f => f.id == i)).length
    let films' := st.films.filter (fun f => !(f.id == i))
    .ok (decide (0 < affected),
         { st with films := films', titels := titels', schauspielers := sch' })

/- ### Concrete fixtures used by witnesses and counterexamples -/

/-- An empty database. -/
def stEmpty : Store := { films := [], titels := [], schauspielers := [], fresh := 1 }

/-- A film row at version 0. -/
def f5 : FilmRow :=
  { id := 1, version := 0, rating := some 3, filmstart := none,
    dauer := none, sprache := none, direktor := none, genres := ["ACTION"] }

/-- The title row owned by `f5`. -/
def t5 : TitelRow :=
  { id := 2, titel := "The Ring", originaltitel := none, serienname := none, filmId := 1 }

/-- A store holding the single film "The Ring". -/
def st5 : Store := { films := [f5], titels := [t5], schauspielers := [], fresh := 10 }

/-- The aggregate `findById` returns for film 1 of `st5` without actors. -/
def agg5 : FilmAgg := { row := f5, titel := t5, schauspielers := [] }

/-- A create request titled "Ring". -/
def inp5 : FilmInput :=
  { rating := none, filmstart := none, dauer := none, sprache := none,
    direktor := none, genres := [],
    titel := { titel := "Ring", originaltitel := none, serienname := none },
    schauspielers := [] }

/-- A create request titled "Zebra", with one actor. -/
def inp6 : FilmInput :=
  { inp5 with
    titel := { titel := "Zebra", originaltitel := none, serienname := none },
    schauspielers := [{ vorname := "Tom", nachname := "Alder", geschlecht := none,
                        email := none, telefonnummer := none }] }

/-- An update payload leaving every scalar field undefined. -/
def p0 : FilmPayload := ⟨none, none, none, none, none, none⟩

/-- Two actor rows owned by film 1. -/
def sch7a : SchauspielerRow :=
  { id := 3, vorname := "Anna", nachname := "Abel", geschlecht := none,
    email := none, telefonnummer := none, filmId := 1 }

/-- Second actor row owned by film 1. -/
def sch7b : SchauspielerRow :=
  { id := 4, vorname := "Ben", nachname := "Baer", geschlecht := none,
    email := none, telefonnummer := none, filmId := 1 }

/-- A store holding one film with its title group and two actors. -/
def st7 : Store :=
  { films := [f5], titels := [t5], schauspielers := [sch7a, sch7b], fresh := 10 }

/-- The aggregate `findById` returns for film 1 of `st7` with actors. -/
def agg7 : FilmAgg := { row := f5, titel := t5, schauspielers := [sch7a, sch7b] }

/-- The film row inserted by `create st5 inp6`. -/
def f10 : FilmRow :=
  { id := 10, version := 0, rating := none, filmstart := none,
    dauer := none, sprache := none, direktor := none, genres := [] }

/-- The title row inserted by `create st5 inp6`. -/
def t11 : TitelRow :=
  { id := 11, titel := "Zebra", originaltitel := none, serienname := none, filmId := 10 }

/-- The actor row inserted by `create st5 inp6`. -/
def sch12 : SchauspielerRow :=
  { id := 12, vorname := "Tom", nachname := "Alder", geschlecht := none,
    email := none, telefonnummer := none, filmId := 10 }

/-- The store after `create st5 inp6`. -/
def st6 : Store :=
  { films := [f5, f10], titels := [t5, t11], schauspielers := [sch12], fresh := 13 }

/-- Film 1 of `st5` after one successful update. -/
def f5v1 : FilmRow := { f5 with version := 1 }

/-- The store after updating film 1 of `st5` once. -/
def st5v1 : Store := { st5 with films := [f5v1] }

end Buch

namespace Buch

/- ### Helper lemmas -/

theorem jsLtNat_some (v : Int) (n : Nat) :
    jsLtNat (some v) n = decide (v < (n : Int)) := rfl

/- ### C1 -/

/-- C1: the concurrency check of `#findByIdAndCheckVersion` fails with
`VersionOutdated` exactly when the claimed version is strictly below the
stored version; a claimed version greater than or equal to the stored
one is accepted and the fetched film is handed on, so the update
proceeds. -/
theorem concurrency_check_iff (st : Store) (i : Nat) (agg : FilmAgg) (v : Int)
    (_hv : 0 ≤ v) (hfind : findByIdStore st i false = .ok agg) :
    (findByIdAndCheckVersion st i (some v) = .error (.versionOutdated (some v)) ↔
      v < (agg.row.version : Int))
    ∧ ((agg.row.version : Int) ≤ v → findByIdAndCheckVersion st i (some v) = .ok agg) := by
  unfold findByIdAndCheckVersion
  rw [hfind]
  constructor
  · by_cases h : v < (agg.row.version : Int)
    · simp [jsLtNat_some, h]
    · simp [jsLtNat_some, h]
  · intro h
    have h' : ¬ v < (agg.row.version : Int) := not_lt.mpr h
    simp [jsLtNat_some, h']

/-- Witness for C1 at the concrete store `st5` (stored version 0,
claimed version 2). -/
theorem concurrency_check_iff_witness :
    (findByIdAndCheckVersion st5 1 (some 2) = .error (.versionOutdated (some 2)) ↔
      (2 : Int) < (agg5.row.version : Int))
    ∧ ((agg5.row.version : Int) ≤ 2 → findByIdAndCheckVersion st5 1 (some 2) = .ok agg5) :=
  concurrency_check_iff st5 1 agg5 2 (by decide) (by decide)

/- ### C4 -/

/-- C4: `delete` on an id with no film does not return `false`; it
raises the read service's `NotFoundException`, contradicting both the
specification and the method's own doc comment. -/
theorem delete_missing_film_raises :
    deleteFilm stEmpty 999 = .error (.notFound (.keinFilmMitId 999)) := by decide

/- ### C6 -/

/-- C6 counterexample: `update` with an undefined id fails with the
`NotFound` kind (`NotFoundException`, message 'Es gibt keinen Film mit
der ID undefined.'), not with a failure kind distinct from `NotFound`;
the error taxonomy of the code has no separate IdMissing kind. -/
theorem update_undefined_id_cex :
    update stEmpty none p0 (some "not-a-version")
      = .error (.notFound .keinenFilmMitIdUndefined) := by decide

/-- C6 amended: `update` with an absent id fails immediately with
`NotFound`, independent of the store, the payload and the version
token — hence before any version decoding or store access. -/
theorem update_undefined_id_amended (st : Store) (p : FilmPayload) (tok : Option String) :
    update st none p tok = .error (.notFound .keinenFilmMitIdUndefined) := rfl

/- ### C10 -/

/-- C10: with no criteria at all (undefined or an empty criteria
object) and zero matching rows, `find` returns the empty list without
error; the empty-result-to-`NotFound` translation is not applied on
this path. -/
theorem find_no_criteria (st : Store) (h : runQuery st [] = []) :
    find st none = .ok [] ∧ find st (some []) = .ok [] := by
  refine ⟨?_, ?_⟩ <;> simp [find, h]

/-- Witness for C10 at the empty store. -/
theorem find_no_criteria_witness :
    find stEmpty none = .ok [] ∧ find stEmpty (some []) = .ok [] :=
  find_no_criteria stEmpty (by decide)

/- ### Decimal digits: helper lemmas for the version-token codec -/

theorem natToDecimalAux_spec (n : Nat) :
    ∀ fuel acc, n < fuel →
      natToDecimalAux fuel n acc = natToDecimalAux (n + 1) n [] ++ acc := by
  induction n using Nat.strong_induction_on with
  | _ n ih =>
    intro fuel acc hf
    match fuel, hf with
    | fuel + 1, hf =>
      by_cases h : n < 10
      · simp [natToDecimalAux, h]
      · have hdiv : n / 10 < n := Nat.div_lt_self (by omega) (by omega)
        have h1 : natToDecimalAux (fuel + 1) n acc
            = natToDecimalAux fuel (n / 10) (digitChar (n % 10) :: acc) := by
          simp [natToDecimalAux, h]
        have h2 : natToDecimalAux (n + 1) n []
            = natToDecimalAux n (n / 10) [digitChar (n % 10)] := by
          simp [natToDecimalAux, h]
        rw [h1, h2, ih (n / 10) hdiv fuel (digitChar (n % 10) :: acc) (by omega),
            ih (n / 10) hdiv n [digitChar (n % 10)] hdiv]
        simp

theorem natToDecimal_lt {n : Nat} (h : n < 10) : natToDecimal n = [digitChar n] := by
  simp [natToDecimal, natToDecimalAux, h]

theorem natToDecimal_ge {n : Nat} (h : ¬ n < 10) :
    natToDecimal n = natToDecimal (n / 10) ++ [digitChar (n % 10)] := by
  unfold natToDecimal
  have h2 : natToDecimalAux (n + 1) n []
      = natToDecimalAux n (n / 10) [digitChar (n % 10)] := by
    simp [natToDecimalAux, h]
  rw [h2, natToDecimalAux_spec (n / 10) n [digitChar (n % 10)]
        (Nat.div_lt_self (by omega) (by omega))]

theorem natToDecimal_ne_nil (n : Nat) : natToDecimal n ≠ [] := by
  by_cases h : n < 10
  · simp [natToDecimal_lt h]
  · simp [natToDecimal_ge h]

theorem digitChar_isDigit {n : Nat} (h : n < 10) : (digitChar n).isDigit = true := by
  interval_cases n <;> decide

theorem digitChar_toNat {n : Nat} (h : n < 10) : (digitChar n).toNat = 48 + n := by
  interval_cases n <;> decide

theorem natToDecimal_digits (n : Nat) : ∀ c ∈ natToDecimal n, c.isDigit = true := by
  induction n using Nat.strong_induction_on with
  | _ n ih =>
    by_cases h : n < 10
    · simpa [natToDecimal_lt h] using digitChar_isDigit h
    · rw [natToDecimal_ge h]
      intro c hc
      rcases List.mem_append.mp hc with h1 | h1
      · exact ih (n / 10) (Nat.div_lt_self (by omega) (by omega)) c h1
      · have hc' : c = digitChar (n % 10) := by simpa using h1
        subst hc'
        exact digitChar_isDigit (Nat.mod_lt _ (by omega))

theorem foldl_decimal (n : Nat) :
    ∀ a, List.foldl (fun a c => 10 * a + (c.toNat - 48)) a (natToDecimal n)
      = a * 10 ^ (natToDecimal n).length + n := by
  induction n using Nat.strong_induction_on with
  | _ n ih =>
    intro a
    by_cases h : n < 10
    · rw [natToDecimal_lt h]
      simp only [List.foldl_cons, List.foldl_nil, List.length_cons, List.length_nil]
      rw [digitChar_toNat h, pow_one]
      omega
    · have hdiv : n / 10 < n := Nat.div_lt_self (by omega) (by omega)
      rw [natToDecimal_ge h, List.foldl_append, ih (n / 10) hdiv a]
      simp only [List.foldl_cons, List.foldl_nil, List.length_append, List.length_cons,
        List.length_nil]
      rw [digitChar_toNat (Nat.mod_lt _ (by omega))]
      have hsub : 48 + n % 10 - 48 = n % 10 := by omega
      rw [hsub]
      calc 10 * (a * 10 ^ (natToDecimal (n / 10)).length + n / 10) + n % 10
          = a * (10 ^ (natToDecimal (n / 10)).length * 10) + (10 * (n / 10) + n % 10) := by
            ring
        _ = a * (10 ^ (natToDecimal (n / 10)).length * 10) + n := by
            rw [Nat.div_add_mod]
        _ = a * 10 ^ ((natToDecimal (n / 10)).length + (0 + 1)) + n := by
            rw [pow_succ]

theorem digitsVal_natToDecimal (n : Nat) : digitsVal (natToDecimal n) = n := by
  unfold digitsVal
  rw [foldl_decimal n 0]
  simp

theorem dropWhile_all_append (p : Char → Bool) (ds l : List Char)
    (h : ∀ c ∈ ds, p c = true) :
    List.dropWhile p (ds ++ l) = List.dropWhile p l := by
  induction ds with
  | nil => rfl
  | cons c cs ih =>
    simp only [List.cons_append, List.dropWhile_cons, h c (by simp), if_true]
    exact ih (fun c hc => h c (by simp [hc]))

theorem takeWhile_all_append (p : Char → Bool) (ds l : List Char)
    (h : ∀ c ∈ ds, p c = true) :
    List.takeWhile p (ds ++ l) = ds ++ List.takeWhile p l := by
  induction ds with
  | nil => rfl
  | cons c cs ih =>
    simp only [List.cons_append, List.takeWhile_cons, h c (by simp), if_true]
    rw [ih (fun c hc => h c (by simp [hc]))]

theorem takeWhile_all (p : Char → Bool) (ds : List Char) (h : ∀ c ∈ ds, p c = true) :
    List.takeWhile p ds = ds := by
  have h2 := takeWhile_all_append p ds [] h
  simpa using h2

theorem digit_not_ws {c : Char} (h : c.isDigit = true) : jsWhitespace c = false := by
  have h1 : c ≠ ' ' := by rintro rfl; exact absurd h (by decide)
  have h2 : c ≠ '\t' := by rintro rfl; exact absurd h (by decide)
  have h3 : c ≠ '\n' := by rintro rfl; exact absurd h (by decide)
  have h4 : c ≠ '\r' := by rintro rfl; exact absurd h (by decide)
  simp [jsWhitespace, h1, h2, h3, h4]

theorem digit_ne_minus {c : Char} (h : c.isDigit = true) : c ≠ '-' := by
  rintro rfl; exact absurd h (by decide)

theorem digit_ne_plus {c : Char} (h : c.isDigit = true) : c ≠ '+' := by
  rintro rfl; exact absurd h (by decide)

theorem jsParseInt_all_digits (ds : List Char) (hne : ds ≠ [])
    (hd : ∀ c ∈ ds, c.isDigit = true) :
    jsParseInt (String.mk ds) = some ((digitsVal ds : Nat) : Int) := by
  match ds, hne with
  | c :: cs, _ =>
    have hc := hd c (by simp)
    have hdrop : List.dropWhile jsWhitespace (c :: cs) = c :: cs := by
      rw [List.dropWhile_cons, digit_not_ws hc]
      simp
    have hdata : (String.mk (c :: cs)).data = c :: cs := rfl
    unfold jsParseInt
    rw [hdata, hdrop]
    simp only [jsParseIntCore]
    rw [if_neg (digit_ne_minus hc), if_neg (digit_ne_plus hc)]
    unfold digitsLeadVal
    rw [takeWhile_all _ _ hd]
    simp

/-- Parsing the canonical token of a version: the codec reads back
exactly the formatted number. -/
theorem validateVersion_formatETag (n : Nat) :
    validateVersion (some (formatETag n)) = .ok (some (n : Int)) := by
  have hdigits := natToDecimal_digits n
  have hdata : (formatETag n).data = '"' :: (natToDecimal n ++ ['"']) := rfl
  have htest : versionPatternTest (formatETag n) = true := by
    unfold versionPatternTest
    rw [hdata]
    simp only [versionPatternCore]
    rw [dropWhile_all_append _ _ _ hdigits, List.dropWhile_cons]
    simp [headIsQuote]
  have hslice : jsSliceInner (formatETag n) = String.mk (natToDecimal n) := by
    unfold jsSliceInner
    rw [hdata, List.drop_one, List.tail_cons, List.dropLast_concat]
  simp only [validateVersion, htest, if_true]
  rw [hslice, jsParseInt_all_digits _ (natToDecimal_ne_nil n) (natToDecimal_digits n),
      digitsVal_natToDecimal]

/-- Semantics of the regular expression `^"\d*"` under `.test`: a match
exists exactly when the string is a double quote, then some digits, then
a double quote, then anything. -/
theorem versionPatternTest_iff (s : String) :
    versionPatternTest s = true ↔
      ∃ ds rest, s.data = '"' :: (ds ++ '"' :: rest) ∧ ∀ c ∈ ds, c.isDigit = true := by
  unfold versionPatternTest
  constructor
  · intro h
    cases hdata : s.data with
    | nil => rw [hdata] at h; simp [versionPatternCore] at h
    | cons c rest0 =>
      rw [hdata] at h
      simp only [versionPatternCore, Bool.and_eq_true, beq_iff_eq] at h
      obtain ⟨hc, hq⟩ := h
      subst hc
      cases hdrop : rest0.dropWhile Char.isDigit with
      | nil => rw [hdrop] at hq; simp [headIsQuote] at hq
      | cons d tail =>
        rw [hdrop] at hq
        simp only [headIsQuote, beq_iff_eq] at hq
        subst hq
        refine ⟨rest0.takeWhile Char.isDigit, tail, ?_, ?_⟩
        · have hr := List.takeWhile_append_dropWhile (p := Char.isDigit) (l := rest0)
          rw [hdrop] at hr
          rw [hr]
        · intro c hc
          exact List.mem_takeWhile_imp hc
  · rintro ⟨ds, rest, hdata, hds⟩
    rw [hdata]
    simp only [versionPatternCore]
    rw [dropWhile_all_append _ _ _ hds, List.dropWhile_cons]
    simp [headIsQuote]

/- ### C3 -/

/-- C3 counterexample: the token `"3"x` is not a double-quoted
non-negative integer, yet version parsing succeeds on it and returns 3:
`VERSION_PATTERN` has no end anchor, so trailing characters after the
closing quote are accepted. -/
theorem version_parse_trailing_junk :
    validateVersion (some "\"3\"x") = .ok (some 3) := by decide

/-- C3 amended: version parsing succeeds exactly when the token starts
with a double quote, zero or more digits and another double quote —
arbitrary trailing characters are allowed (and with zero digits the
parsed value is NaN); every other token, including an undefined one,
fails with `InvalidVersion` carrying the token; canonical tokens `"N"`
parse to N. -/
theorem version_parse_amended (v : Option String) :
    ((validateVersion v).isOk = true ↔
      ∃ s ds rest, v = some s ∧ s.data = '"' :: (ds ++ '"' :: rest)
        ∧ ∀ c ∈ ds, c.isDigit = true)
    ∧ ((validateVersion v).isOk = false → validateVersion v = .error (.versionInvalid v))
    ∧ (∀ n : Nat, validateVersion (some (formatETag n)) = .ok (some (n : Int))) := by
  refine ⟨?_, ?_, validateVersion_formatETag⟩
  · cases v with
    | none => simp [validateVersion, Except.isOk, Except.toBool]
    | some s =>
      by_cases h : versionPatternTest s
      · simp only [validateVersion, h, if_true]
        constructor
        · intro _
          obtain ⟨ds, rest, hdata, hds⟩ := (versionPatternTest_iff s).mp h
          exact ⟨s, ds, rest, rfl, hdata, hds⟩
        · intro _
          rfl
      · have hval : validateVersion (some s) = .error (.versionInvalid (some s)) := by
          simp [validateVersion, h]
        rw [hval]
        constructor
        · intro hok
          simp [Except.isOk, Except.toBool] at hok
        · rintro ⟨s', ds, rest, hs, hdata, hds⟩
          injection hs with hs'
          subst hs'
          exact absurd ((versionPatternTest_iff s).mpr ⟨ds, rest, hdata, hds⟩) h
  · cases v with
    | none => intro _; rfl
    | some s =>
      by_cases h : versionPatternTest s
      · intro hok
        simp [validateVersion, h, Except.isOk, Except.toBool] at hok
      · intro _
        simp [validateVersion, h]

/-- Witness for C3 at the concrete token `"7"`. -/
theorem version_parse_amended_witness :
    (((validateVersion (some "\"7\"")).isOk = true ↔
      ∃ s ds rest, (some "\"7\"" : Option String) = some s
        ∧ s.data = '"' :: (ds ++ '"' :: rest) ∧ ∀ c ∈ ds, c.isDigit = true)
    ∧ ((validateVersion (some "\"7\"")).isOk = false →
        validateVersion (some "\"7\"") = .error (.versionInvalid (some "\"7\"")))
    ∧ (∀ n : Nat, validateVersion (some (formatETag n)) = .ok (some (n : Int)))) :=
  version_parse_amended (some "\"7\"")

/- ### C9 -/

/-- C9: for every valid version token of the canonical form `"N"` with
N greater than or equal to 0, parsing returns N and formatting the
parsed value reproduces the original token: format(parse(s)) = s. -/
theorem version_token_roundtrip (n : Nat) :
    validateVersion (some (formatETag n)) = .ok (some (n : Int))
    ∧ formatETag ((n : Int)).toNat = formatETag n := by
  refine ⟨validateVersion_formatETag n, ?_⟩
  simp

/- ### Store helper lemmas -/

/-- What a successful `findById` guarantees about its result. -/
theorem findByIdStore_ok {st : Store} {i : Nat} {ms : Bool} {agg : FilmAgg}
    (h : findByIdStore st i ms = .ok agg) :
    agg.row ∈ st.films ∧ agg.row.id = i
    ∧ agg.titel ∈ st.titels ∧ agg.titel.filmId = i
    ∧ agg.schauspielers
        = (if ms then st.schauspielers.filter (fun s => s.filmId == i) else []) := by
  cases h1 : st.films.find? (fun f => f.id == i) with
  | none =>
    simp only [findByIdStore, h1] at h
    exact Except.noConfusion h
  | some f =>
    cases h2 : st.titels.find? (fun t => t.filmId == i) with
    | none =>
      simp only [findByIdStore, h1, h2] at h
      exact Except.noConfusion h
    | some t =>
      simp only [findByIdStore, h1, h2, Except.ok.injEq] at h
      subst h
      refine ⟨List.mem_of_find?_eq_some h1, ?_, List.mem_of_find?_eq_some h2, ?_, rfl⟩
      · have := List.find?_some h1
        simpa using this
      · have := List.find?_some h2
        simpa using this

theorem mergeFilm_id (stored : FilmRow) (p : FilmPayload) :
    (mergeFilm stored p).id = stored.id := rfl

theorem mergeFilm_version (stored : FilmRow) (p : FilmPayload) :
    (mergeFilm stored p).version = stored.version := rfl

/- ### C2 -/

/-- C2: a created film is persisted at version 0, and a successful
update returns exactly the previously stored version plus 1 and persists
the film at that version, so the version strictly increases by 1 per
update and is never reused. -/
theorem film_version_lifecycle
    (st : Store) (inp : FilmInput) (i : Nat) (st₁ : Store)
    (p : FilmPayload) (tok : Option String) (j v : Nat) (st₂ : Store)
    (hc : create st inp = .ok (i, st₁))
    (hu : update st (some j) p tok = .ok (v, st₂)) :
    (∃ fr ∈ st₁.films, fr.id = i ∧ fr.version = 0)
    ∧ (∃ fDb ∈ st.films, fDb.id = j ∧ v = fDb.version + 1
        ∧ ∃ fr ∈ st₂.films, fr.id = j ∧ fr.version = fDb.version + 1) := by
  constructor
  · cases hval : validateCreate st inp with
    | error e =>
      simp only [create, hval] at hc
      exact Except.noConfusion hc
    | ok u =>
      simp only [create, hval, Except.ok.injEq, Prod.mk.injEq] at hc
      obtain ⟨hi, hst⟩ := hc
      refine ⟨(saveInsert st inp).1, ?_, ?_, rfl⟩
      · rw [← hst]
        simp [saveInsert]
      · rw [← hi]
  · cases hvu : validateUpdate st j tok with
    | error e =>
      simp only [update, hvu] at hu
      exact Except.noConfusion hu
    | ok filmNeu =>
      simp only [update, hvu, Except.ok.injEq, Prod.mk.injEq] at hu
      obtain ⟨hv, hst⟩ := hu
      cases hvv : validateVersion tok with
      | error e =>
        simp only [validateUpdate, hvv] at hvu
        exact Except.noConfusion hvu
      | ok ver =>
        have hguard : findByIdAndCheckVersion st j ver = .ok filmNeu := by
          simpa only [validateUpdate, hvv] using hvu
        cases hfind : findByIdStore st j false with
        | error e =>
          simp only [findByIdAndCheckVersion, hfind] at hguard
          exact Except.noConfusion hguard
        | ok agg =>
          simp only [findByIdAndCheckVersion, hfind] at hguard
          by_cases hlt : jsLtNat ver agg.row.version = true
          · rw [if_pos hlt] at hguard
            exact absurd hguard (by simp)
          · rw [if_neg hlt] at hguard
            have hagg : agg = filmNeu := by simpa using hguard
            subst hagg
            obtain ⟨hmem, hid, -, -, -⟩ := findByIdStore_ok hfind
            refine ⟨agg.row, hmem, hid, ?_, ?_⟩
            · rw [← hv]
              simp [saveUpdate, mergeFilm_version]
            · refine ⟨(saveUpdate st (mergeFilm agg.row p)).1, ?_, ?_, ?_⟩
              · rw [← hst]
                simp only [saveUpdate]
                apply List.mem_map.mpr
                refine ⟨agg.row, hmem, ?_⟩
                rw [mergeFilm_id, hid]
                simp
              · simp [saveUpdate, mergeFilm_id, hid]
              · simp [saveUpdate, mergeFilm_version]

/-- Witness for C2: on `st5`, creating `inp6` persists film 10 at
version 0 and updating film 1 with token `"0"` returns version 1. -/
theorem film_version_lifecycle_witness :
    (∃ fr ∈ st6.films, fr.id = 10 ∧ fr.version = 0)
    ∧ (∃ fDb ∈ st5.films, fDb.id = 1 ∧ 1 = fDb.version + 1
        ∧ ∃ fr ∈ st5v1.films, fr.id = 1 ∧ fr.version = fDb.version + 1) :=
  film_version_lifecycle st5 inp6 10 st6 p0 (some "\"0\"") 1 1 st5v1
    (by decide) (by decide)

/- ### Query helper lemmas -/

/-- A single `titel` criterion is exactly the case-insensitive substring
filter on the joined title. -/
theorem matches_titel_single (f : FilmRow) (t : TitelRow) (x : String) :
    matchesCriteria f t [("titel", x)] = likeContains t.titel x := by
  simp [matchesCriteria, criterionMatches]

/-- The search result is nonempty exactly when some film joined with
its (unique) title row satisfies all criteria. -/
theorem runQuery_ne_nil_iff (st : Store) (kvs : List (String × String))
    (hwf : ∀ t₁ ∈ st.titels, ∀ t₂ ∈ st.titels, t₁.filmId = t₂.filmId → t₁ = t₂) :
    runQuery st kvs ≠ [] ↔
      ∃ f ∈ st.films, ∃ t ∈ st.titels, t.filmId = f.id
        ∧ matchesCriteria f t kvs = true := by
  unfold runQuery
  rw [Ne, List.filterMap_eq_nil_iff]
  constructor
  · intro h
    push_neg at h
    obtain ⟨f, hf, hfn⟩ := h
    cases h2 : st.titels.find? (fun t => t.filmId == f.id) with
    | none => rw [h2] at hfn; simp at hfn
    | some t =>
      rw [h2] at hfn
      by_cases hm : matchesCriteria f t kvs
      · refine ⟨f, hf, t, List.mem_of_find?_eq_some h2, ?_, hm⟩
        have := List.find?_some h2
        simpa using this
      · simp [hm] at hfn
  · rintro ⟨f, hf, t, ht, htf, hm⟩ hall
    have hsome : (st.titels.find? (fun t2 => t2.filmId == f.id)).isSome := by
      apply List.find?_isSome.mpr
      exact ⟨t, ht, by simpa using htf⟩
    obtain ⟨t', ht'⟩ := Option.isSome_iff_exists.mp hsome
    have ht'mem := List.mem_of_find?_eq_some ht'
    have ht'f : t'.filmId = f.id := by
      have := List.find?_some ht'
      simpa using this
    have heq : t' = t := hwf t' ht'mem t ht (by rw [ht'f, htf])
    subst heq
    have hnone := hall f hf
    rw [ht'] at hnone
    simp [hm] at hnone

/-- How `create` resolves, depending on whether the substring title
query finds a film. -/
theorem create_cases (st : Store) (inp : FilmInput) :
    (runQuery st [("titel", inp.titel.titel)] ≠ [] →
      create st inp = .error (.titelExists inp.titel.titel))
    ∧ (runQuery st [("titel", inp.titel.titel)] = [] →
      create st inp = .ok (st.fresh, (saveInsert st inp).2)) := by
  have hck : checkKeys ["titel"] = true := by decide
  constructor
  · intro hne
    have hfind : find st (some [("titel", inp.titel.titel)])
        = .ok (runQuery st [("titel", inp.titel.titel)]) := by
      simp [find, hck, List.isEmpty_iff, hne]
    simp [create, validateCreate, hfind]
  · intro hnil
    have hfind : find st (some [("titel", inp.titel.titel)])
        = .error (.notFound (.keineFilmeGefunden [("titel", inp.titel.titel)])) := by
      simp [find, hck, List.isEmpty_iff, hnil]
    simp [create, validateCreate, hfind, saveInsert]

/-- Every actor input reappears among the freshly inserted actor rows. -/
theorem mkSchRows_mem (l : List SchauspielerInput) :
    ∀ sid fid a, a ∈ l →
      ∃ sr ∈ mkSchRows sid fid l, sr.filmId = fid
        ∧ sr.vorname = a.vorname ∧ sr.nachname = a.nachname := by
  induction l with
  | nil =>
    intro sid fid a ha
    simp at ha
  | cons b rest ih =>
    intro sid fid a ha
    rcases List.mem_cons.mp ha with h | h
    · subst h
      exact ⟨{ id := sid, vorname := a.vorname, nachname := a.nachname,
               geschlecht := a.geschlecht, email := a.email,
               telefonnummer := a.telefonnummer, filmId := fid },
             by simp [mkSchRows], rfl, rfl, rfl⟩
    · obtain ⟨sr, hsr, hfid, hv, hn⟩ := ih (sid + 1) fid a h
      exact ⟨sr, by simp [mkSchRows]; right; exact hsr, hfid, hv, hn⟩

/- ### C5 -/

/-- C5 counterexample: with only "The Ring" in the store, creating a
film titled "Ring" fails with `TitleExists` although no film with the
title "Ring" exists — the uniqueness probe is a case-insensitive
substring query, not an equality check. -/
theorem create_substring_title_conflict :
    create st5 inp5 = .error (.titelExists "Ring")
    ∧ ∀ t ∈ st5.titels, t.titel ≠ "Ring" := by decide

/-- C5 amended: `create` fails with `TitleExists` (carrying the new
title) if and only if some stored film's title contains the new title
as a case-insensitive substring; otherwise it persists the film at the
fresh id together with its title group and all its actors and returns
that id.  The store is a value, so a failing `create` leaves it
untouched. -/
theorem create_title_conflict_amended (st : Store) (inp : FilmInput)
    (hwf : ∀ t₁ ∈ st.titels, ∀ t₂ ∈ st.titels, t₁.filmId = t₂.filmId → t₁ = t₂) :
    (create st inp = .error (.titelExists inp.titel.titel) ↔
      ∃ f ∈ st.films, ∃ t ∈ st.titels, t.filmId = f.id
        ∧ likeContains t.titel inp.titel.titel = true)
    ∧ ((∀ f ∈ st.films, ∀ t ∈ st.titels, t.filmId = f.id →
          likeContains t.titel inp.titel.titel = false) →
      ∃ st₁, create st inp = .ok (st.fresh, st₁)
        ∧ (∃ fr ∈ st₁.films, fr.id = st.fresh ∧ fr.version = 0)
        ∧ (∃ tr ∈ st₁.titels, tr.filmId = st.fresh ∧ tr.titel = inp.titel.titel)
        ∧ (∀ a ∈ inp.schauspielers, ∃ sr ∈ st₁.schauspielers,
            sr.filmId = st.fresh ∧ sr.vorname = a.vorname
            ∧ sr.nachname = a.nachname)) := by
  have hiff := runQuery_ne_nil_iff st [("titel", inp.titel.titel)] hwf
  have hmt : ∀ f t, matchesCriteria f t [("titel", inp.titel.titel)]
      = likeContains t.titel inp.titel.titel := fun f t => matches_titel_single f t _
  constructor
  · constructor
    · intro hcre
      by_cases hq : runQuery st [("titel", inp.titel.titel)] = []
      · have := (create_cases st inp).2 hq
        rw [this] at hcre
        exact Except.noConfusion hcre
      · obtain ⟨f, hf, t, ht, htf, hm⟩ := hiff.mp hq
        rw [hmt] at hm
        exact ⟨f, hf, t, ht, htf, hm⟩
    · rintro ⟨f, hf, t, ht, htf, hm⟩
      apply (create_cases st inp).1
      apply hiff.mpr
      exact ⟨f, hf, t, ht, htf, by rw [hmt]; exact hm⟩
  · intro hnone
    have hq : runQuery st [("titel", inp.titel.titel)] = [] := by
      by_contra hq
      obtain ⟨f, hf, t, ht, htf, hm⟩ := hiff.mp hq
      rw [hmt] at hm
      rw [hnone f hf t ht htf] at hm
      exact Bool.noConfusion hm
    refine ⟨(saveInsert st inp).2, (create_cases st inp).2 hq, ?_, ?_, ?_⟩
    · refine ⟨(saveInsert st inp).1, ?_, rfl, rfl⟩
      simp [saveInsert]
    · refine ⟨{ id := st.fresh + 1, titel := inp.titel.titel,
                originaltitel := inp.titel.originaltitel,
                serienname := inp.titel.serienname, filmId := st.fresh }, ?_, rfl, rfl⟩
      simp [saveInsert]
    · intro a ha
      obtain ⟨sr, hsr, hfid, hv, hn⟩ := mkSchRows_mem inp.schauspielers (st.fresh + 2) st.fresh a ha
      refine ⟨sr, ?_, hfid, hv, hn⟩
      simp only [saveInsert, List.mem_append]
      right
      exact hsr

/-- Witness for C5 at the store `st5` and the non-conflicting input
`inp6`. -/
theorem create_title_conflict_amended_witness :
    ((create st5 inp6 = .error (.titelExists inp6.titel.titel) ↔
      ∃ f ∈ st5.films, ∃ t ∈ st5.titels, t.filmId = f.id
        ∧ likeContains t.titel inp6.titel.titel = true)
    ∧ ((∀ f ∈ st5.films, ∀ t ∈ st5.titels, t.filmId = f.id →
          likeContains t.titel inp6.titel.titel = false) →
      ∃ st₁, create st5 inp6 = .ok (st5.fresh, st₁)
        ∧ (∃ fr ∈ st₁.films, fr.id = st5.fresh ∧ fr.version = 0)
        ∧ (∃ tr ∈ st₁.titels, tr.filmId = st5.fresh ∧ tr.titel = inp6.titel.titel)
        ∧ (∀ a ∈ inp6.schauspielers, ∃ sr ∈ st₁.schauspielers,
            sr.filmId = st5.fresh ∧ sr.vorname = a.vorname
            ∧ sr.nachname = a.nachname))) :=
  create_title_conflict_amended st5 inp6 (by decide)

/- ### C7 -/

/-- C7: deleting an existing film (fetched with its title group and all
its actors) removes, in one atomic state transition, the owned title
row, every owned actor row and the film row, returns `true` because a
film row was removed, and afterwards `findById` on that id fails
`NotFound`; title group and actors are no longer retrievable. -/
theorem delete_cascading (st : Store) (i : Nat) (agg : FilmAgg)
    (hfind : findByIdStore st i true = .ok agg)
    (hwf : ∀ t₁ ∈ st.titels, ∀ t₂ ∈ st.titels, t₁.filmId = t₂.filmId → t₁ = t₂) :
    ∃ st', deleteFilm st i = .ok (true, st')
      ∧ (∀ f ∈ st'.films, f.id ≠ i)
      ∧ (∀ t ∈ st'.titels, t.filmId ≠ i)
      ∧ (∀ s ∈ st'.schauspielers, s.filmId ≠ i)
      ∧ findByIdStore st' i true = .error (.notFound (.keinFilmMitId i)) := by
  obtain ⟨hmem, hid, htmem, htfid, hsch⟩ := findByIdStore_ok hfind
  have hsch' : agg.schauspielers = st.schauspielers.filter (fun s => s.filmId == i) := by
    simpa using hsch
  refine ⟨{ st with
            films := st.films.filter (fun f => !(f.id == i)),
            titels := st.titels.filter (fun t => !(t.id == agg.titel.id)),
            schauspielers := st.schauspielers.filter
              (fun s => !(agg.schauspielers.any (fun d => d.id == s.id))) },
          ?_, ?_, ?_, ?_, ?_⟩
  · have haff : decide (0 < (st.films.filter (fun f => f.id == i)).length) = true := by
      have hmemf : agg.row ∈ st.films.filter (fun f => f.id == i) :=
        List.mem_filter.mpr ⟨hmem, by simpa using hid⟩
      exact decide_eq_true (List.length_pos.mpr (List.ne_nil_of_mem hmemf))
    simp only [deleteFilm, hfind, haff]
  · intro f hf
    have h2 := (List.mem_filter.mp hf).2
    simpa using h2
  · intro t ht hti
    have h1 := (List.mem_filter.mp ht).1
    have h2 := (List.mem_filter.mp ht).2
    have heq : t = agg.titel := hwf t h1 agg.titel htmem (by rw [hti, htfid])
    rw [heq] at h2
    simp at h2
  · intro s hs hsi
    have h1 := (List.mem_filter.mp hs).1
    have h2 := (List.mem_filter.mp hs).2
    have hin : s ∈ agg.schauspielers := by
      rw [hsch']
      exact List.mem_filter.mpr ⟨h1, by simpa using hsi⟩
    have hany : agg.schauspielers.any (fun d => d.id == s.id) = true :=
      List.any_eq_true.mpr ⟨s, hin, by simp⟩
    rw [hany] at h2
    simp at h2
  · have hnone : (st.films.filter (fun f => !(f.id == i))).find? (fun f => f.id == i)
        = none := by
      apply List.find?_eq_none.mpr
      intro f hf
      have h2 := (List.mem_filter.mp hf).2
      simpa using h2
    simp only [findByIdStore, hnone]

/-- Witness for C7: deleting film 1 of `st7` (one title group, two
actors). -/
theorem delete_cascading_witness :
    ∃ st', deleteFilm st7 1 = .ok (true, st')
      ∧ (∀ f ∈ st'.films, f.id ≠ 1)
      ∧ (∀ t ∈ st'.titels, t.filmId ≠ 1)
      ∧ (∀ s ∈ st'.schauspielers, s.filmId ≠ 1)
      ∧ findByIdStore st' 1 true = .error (.notFound (.keinFilmMitId 1)) :=
  delete_cascading st7 1 agg7 (by decide) (by decide)

/- ### C8 -/

/-- A failing key check exhibits an invalid key. -/
theorem checkKeys_false_exists {keys : List String} (h : checkKeys keys = false) :
    ∃ k ∈ keys, isValidKey k = false := by
  by_contra hno
  push_neg at hno
  have hall : checkKeys keys = true := by
    apply List.all_eq_true.mpr
    intro x hx
    have := hno x hx
    simpa using this
  rw [hall] at h
  exact Bool.noConfusion h

/-- C8: the search fails with `NotFound` carrying the
invalid-search-criteria message exactly when the criteria object is
nonempty and some key is neither a Film attribute name nor one of the
three genre flags; when every key is valid, the query runs instead and
only an empty result set is turned into the other `NotFound`. -/
theorem find_invalid_criteria (st : Store) (kvs : List (String × String)) :
    (find st (some kvs) = .error (.notFound .ungueltigeSuchkriterien) ↔
      kvs ≠ [] ∧ ∃ kv ∈ kvs, isValidKey kv.1 = false)
    ∧ ((∀ kv ∈ kvs, isValidKey kv.1 = true) →
        find st (some kvs) =
          if kvs ≠ [] ∧ runQuery st kvs = []
          then .error (.notFound (.keineFilmeGefunden kvs))
          else .ok (runQuery st kvs)) := by
  constructor
  · cases kvs with
    | nil =>
      constructor
      · intro h
        simp [find] at h
      · rintro ⟨hne, -⟩
        exact absurd rfl hne
    | cons kv rest =>
      by_cases hck : checkKeys (kv.1 :: rest.map Prod.fst) = true
      · have hval : ∀ kv' ∈ kv :: rest, isValidKey kv'.1 = true := by
          intro kv' hkv'
          exact List.all_eq_true.mp hck _ (List.mem_map_of_mem Prod.fst hkv')
        constructor
        · intro h
          exfalso
          by_cases hq : (runQuery st (kv :: rest)).isEmpty = true
          · simp [find, hck, hq] at h
          · simp [find, hck, hq] at h
        · rintro ⟨-, kv', hkv', hbad⟩
          rw [hval kv' hkv'] at hbad
          exact Bool.noConfusion hbad
      · have hng : checkKeys (kv.1 :: rest.map Prod.fst) = false := by
          simpa using hck
        constructor
        · intro _
          refine ⟨by simp, ?_⟩
          obtain ⟨x, hx, hxbad⟩ := checkKeys_false_exists hng
          have hx' : x ∈ (kv :: rest).map Prod.fst := hx
          obtain ⟨kv', hkv', rfl⟩ := List.mem_map.mp hx'
          exact ⟨kv', hkv', hxbad⟩
        · intro _
          simp [find, hng]
  · intro hval
    cases kvs with
    | nil => simp [find]
    | cons kv rest =>
      have hck : checkKeys (kv.1 :: rest.map Prod.fst) = true := by
        apply List.all_eq_true.mpr
        intro x hx
        have hx' : x ∈ (kv :: rest).map Prod.fst := hx
        obtain ⟨kv', hkv', rfl⟩ := List.mem_map.mp hx'
        exact hval kv' hkv'
      by_cases hq : runQuery st (kv :: rest) = []
      · simp [find, hck, List.isEmpty_iff, hq]
      · simp [find, hck, List.isEmpty_iff, hq]

/-- Witness for C8 at `st5` with the invalid key `nonexistentField`. -/
theorem find_invalid_criteria_witness :
    ((find st5 (some [("nonexistentField", "x")])
        = .error (.notFound .ungueltigeSuchkriterien) ↔
      [("nonexistentField", "x")] ≠ ([] : List (String × String))
        ∧ ∃ kv ∈ [("nonexistentField", "x")], isValidKey kv.1 = false)
    ∧ ((∀ kv ∈ [("nonexistentField", "x")], isValidKey kv.1 = true) →
        find st5 (some [("nonexistentField", "x")]) =
          if [("nonexistentField", "x")] ≠ ([] : List (String × String))
              ∧ runQuery st5 [("nonexistentField", "x")] = []
          then .error (.notFound (.keineFilmeGefunden [("nonexistentField", "x")]))
          else .ok (runQuery st5 [("nonexistentField", "x")]))) :=
  find_invalid_criteria st5 [("nonexistentField", "x")]

end Buch
